import Mathlib

/-!
Shallow embedding of the AMÉLIA triage core (`SistemaTriagem` in
`src/models.py`) and proofs about its conversation state machine,
priority scorer, ticket generator and finalization path.

Modelling conventions:
* Python dicts keyed by question id / patient id become association lists
  with first-match lookup and in-place update, matching dict semantics.
* Python exceptions become `Option`: `processar_resposta` and
  `finalizar_triagem` return `none` exactly where the Python code would
  raise an uncaught exception (a `KeyError` on a missing conversation).
  The `try: int(...) except: pass` blocks are total via `pyInt`.
* `random.randint`/`random.uniform` draw from an injected stream of
  naturals (`Rng`); each draw is mapped into the library call's contracted
  range. `round(uniform(36.0, 39.5), 1)` is modelled in tenths of a degree
  (an arbitrary draw in [360, 395]); temperatures are rationals, so the
  comparisons with 39.0 / 38.0 / 36.5 are exact.
* The database write (`db.session.add` + `commit`) becomes an append to a
  list of `Encounter` rows; `data` timestamps and autoincrement ids are
  out of the modelled scope.
-/

namespace Amelia

/-! ### Python string and dict primitives -/

/-- ASCII whitespace removed by Python `str.strip()` (and ignored by `int(str)`). -/
def isPySpace (c : Char) : Bool :=
  c == ' ' || c == '\t' || c == '\n' || c == '\r' || c == '\x0b' || c == '\x0c'

/-- Remove leading and trailing whitespace from a character list. -/
def stripChars (l : List Char) : List Char :=
  ((l.dropWhile isPySpace).reverse.dropWhile isPySpace).reverse

/-- Value of an ASCII decimal digit. -/
def digitVal (c : Char) : Option Nat :=
  if c.isDigit then some (c.toNat - 48) else none

/-- Continue parsing a digit string; Python `int` allows single underscores
between digits. -/
def parseDigitsAux : List Char → Nat → Option Nat
  | [], acc => some acc
  | '_' :: c :: rest, acc =>
    match digitVal c with
    | some d => parseDigitsAux rest (acc * 10 + d)
    | none => none
  | ['_'], _ => none
  | c :: rest, acc =>
    match digitVal c with
    | some d => parseDigitsAux rest (acc * 10 + d)
    | none => none

/-- Parse a nonempty digit string (no leading underscore). -/
def parseDigits : List Char → Option Nat
  | [] => none
  | c :: rest =>
    match digitVal c with
    | some d => parseDigitsAux rest d
    | none => none

/-- Python `int(s)`: strip whitespace, optional sign, decimal digits.
`none` models a `ValueError`. -/
def pyInt (s : String) : Option Int :=
  match stripChars s.toList with
  | '+' :: rest => (parseDigits rest).map (fun n => (n : Int))
  | '-' :: rest => (parseDigits rest).map (fun n => -(n : Int))
  | l => (parseDigits l).map (fun n => (n : Int))

/-- Test whether the first list is an initial segment of the second. -/
def leadsWith : List Char → List Char → Bool
  | [], _ => true
  | _ :: _, [] => false
  | a :: as, b :: bs => a == b && leadsWith as bs

/-- Substring test on character lists. -/
def hasSubList (needle : List Char) : List Char → Bool
  | [] => leadsWith needle []
  | c :: cs => leadsWith needle (c :: cs) || hasSubList needle cs

/-- Python `needle in hay` on strings. -/
def containsSub (needle hay : String) : Bool :=
  hasSubList needle.toList hay.toList

/-- Python dict update `m[k] = v`: replace in place, or append a new entry. -/
def dictSet (m : List (Nat × String)) (k : Nat) (v : String) : List (Nat × String) :=
  match m with
  | [] => [(k, v)]
  | (k', v') :: rest => if k' = k then (k, v) :: rest else (k', v') :: dictSet rest k v

/-- Python dict lookup `m.get(k)` returning `None` when absent. -/
def dictFind (m : List (Nat × String)) (k : Nat) : Option String :=
  match m with
  | [] => none
  | (k', v') :: rest => if k' = k then some v' else dictFind rest k

/-- Python dict lookup `m.get(k, d)` with a default. -/
def dictGet (m : List (Nat × String)) (k : Nat) (d : String) : String :=
  (dictFind m k).getD d

/-! ### Data model -/

/-- One entry of the `PERGUNTAS` question script. -/
structure Pergunta where
  id : Nat
  texto : String
  tipo : String
deriving DecidableEq, Repr

/-- The `dados_vitais` dict, with each key optional: the dict is empty
before collection and has all four keys after `coletar_sinais_vitais`. -/
structure DadosVitais where
  temperatura : Option ℚ
  batimentos : Option Int
  pressao_sistolica : Option Int
  pressao_diastolica : Option Int
deriving DecidableEq, Repr

/-- The empty `dados_vitais` dict a fresh conversation starts with. -/
def semVitais : DadosVitais := ⟨none, none, none, none⟩

/-- One in-progress triage conversation (a value of `conversas_ativas`). -/
structure Conversa where
  etapa : Nat
  respostas : List (Nat × String)
  sintomas_coletados : List String
  dados_vitais : DadosVitais
deriving DecidableEq, Repr

/-- A concrete vital-signs reading, temperature in tenths of a degree. -/
structure Leitura where
  tempTenths : Nat
  batimentos : Nat
  pressao_sistolica : Nat
  pressao_diastolica : Nat
deriving DecidableEq, Repr

/-- The reading as the `dados_vitais` dict it is stored into. -/
def Leitura.dados (l : Leitura) : DadosVitais :=
  ⟨some ((l.tempTenths : ℚ) / 10), some (l.batimentos : Int),
   some (l.pressao_sistolica : Int), some (l.pressao_diastolica : Int)⟩

/-- A persisted `Encounter` row (fields written by `finalizar_triagem`;
`data` timestamp and autoincrement id are outside the modelled scope). -/
structure Encounter where
  patient_id : Nat
  sintomas : String
  nivel_dor : Int
  temperatura : ℚ
  batimentos : Int
  pressao_sistolica : Int
  pressao_diastolica : Int
  prioridade : String
  senha_chamada : String
  status : String
deriving DecidableEq, Repr

/-- Injected randomness: a stream of naturals with a cursor.  Models the
`random` module; each library call consumes one draw. -/
structure Rng where
  seq : Nat → Nat
  idx : Nat

/-- Next raw draw. -/
def Rng.next (r : Rng) : Nat × Rng :=
  (r.seq r.idx, ⟨r.seq, r.idx + 1⟩)

/-- Model of `random.randint(lo, hi)`: one draw mapped into the interval. -/
def randint (lo hi : Nat) (r : Rng) : Nat × Rng :=
  let (n, r1) := r.next
  (lo + n % (hi - lo + 1), r1)

/-- Whole mutable world: the global `conversas_ativas` map, the database's
`encounter` table, and the random stream. -/
structure Estado where
  conversas_ativas : List (Nat × Conversa)
  encounters : List Encounter
  rng : Rng

/-- Dict lookup in `conversas_ativas`. -/
def cdictFind (m : List (Nat × Conversa)) (k : Nat) : Option Conversa :=
  match m with
  | [] => none
  | (k', v') :: rest => if k' = k then some v' else cdictFind rest k

/-- Dict update in `conversas_ativas`. -/
def cdictSet (m : List (Nat × Conversa)) (k : Nat) (v : Conversa) : List (Nat × Conversa) :=
  match m with
  | [] => [(k, v)]
  | (k', v') :: rest => if k' = k then (k, v) :: rest else (k', v') :: cdictSet rest k v

/-- Dict deletion `del m[k]`. -/
def cdictRemove (m : List (Nat × Conversa)) (k : Nat) : List (Nat × Conversa) :=
  match m with
  | [] => []
  | (k', v') :: rest => if k' = k then cdictRemove rest k else (k', v') :: cdictRemove rest k

/-- String-keyed dict lookup with default, for the ticket prefix and
waiting-time tables. -/
def sdictGet (m : List (String × String)) (k d : String) : String :=
  match m with
  | [] => d
  | (k', v') :: rest => if k' = k then v' else sdictGet rest k d

/-! ### The question script -/

/-- Source `SistemaTriagem.PERGUNTAS`. -/
def PERGUNTAS : List Pergunta :=
  [⟨1, "Olá! Sou a AMÉLIA 🤖💙\n\nVou fazer algumas perguntas para entender melhor como você está se sentindo.\n\nQual é o seu principal sintoma ou queixa hoje?", "texto"⟩,
   ⟨2, "Há quanto tempo você está sentindo isso?\n(Digite: horas, dias ou semanas)", "tempo"⟩,
   ⟨3, "Em uma escala de 0 a 10, qual é o seu nível de dor ou desconforto?\n(0 = sem dor, 10 = dor insuportável)", "numero"⟩,
   ⟨4, "Você está com algum destes sintomas?\n\n• Febre alta\n• Dificuldade para respirar\n• Dor no peito\n• Sangramento\n• Vômitos intensos\n• Desmaios\n\n(Responda: sim ou não)", "sim_nao"⟩]

/-- The fixed "collecting vitals" placeholder message. -/
def msgSinaisVitais : String :=
  "Agora vou verificar seus sinais vitais...\n\n📊 Medindo temperatura...\n💓 Medindo batimentos cardíacos...\n\n(Clique em \x27Enviar\x27 para continuar)"

/-- The fresh conversation record `iniciar_conversa` installs. -/
def novaConversa : Conversa :=
  ⟨0, [], [], semVitais⟩

/-! ### Operations of `SistemaTriagem` -/

/-- Source `SistemaTriagem.iniciar_conversa`. -/
def iniciar_conversa (paciente_id : Nat) (e : Estado) : String × Estado :=
  ((PERGUNTAS.get ⟨0, by decide⟩).texto,
   { e with conversas_ativas := cdictSet e.conversas_ativas paciente_id novaConversa })

/-- Source `SistemaTriagem.coletar_sinais_vitais`: four independent draws in the
library calls' contracted ranges. -/
def coletar_sinais_vitais (r : Rng) : Leitura × Rng :=
  let (t, r1) := randint 360 395 r
  let (b, r2) := randint 60 120 r1
  let (ps, r3) := randint 90 160 r2
  let (pd, r4) := randint 60 100 r3
  (⟨t, b, ps, pd⟩, r4)

/-- The `try: dor = int(nivel_dor) ... except: pass` block of
`calcular_prioridade`: points contributed by one raw pain-level string
(0 when `int()` raises). -/
def pontosDorTexto (s : String) : Int :=
  match pyInt s with
  | some dor => if dor ≥ 8 then 40 else if dor ≥ 5 then 25 else if dor ≥ 3 then 10 else 0
  | none => 0

/-- The point accumulation of `SistemaTriagem.calcular_prioridade`,
mirroring the sequence of `pontos +=` statements. -/
def calcularPontos (conversa : Conversa) : Int :=
  let pontos : Int := 0
  let nivel_dor := dictGet conversa.respostas 3 "0"
  let pontos := pontos + pontosDorTexto nivel_dor
  let sintomas_graves := (dictGet conversa.respostas 4 "").toLower
  let pontos := pontos + (if containsSub "sim" sintomas_graves then 50 else 0)
  let tempo := (dictGet conversa.respostas 2 "").toLower
  let pontos := pontos + (if containsSub "hora" tempo then 15 else 0)
  let vitais := conversa.dados_vitais
  let pontos := pontos +
    (if vitais.temperatura.getD (365 / 10 : ℚ) ≥ 39 then 30
     else if vitais.temperatura.getD (365 / 10 : ℚ) ≥ 38 then 15 else 0)
  let batimentos := vitais.batimentos.getD 75
  let pontos := pontos +
    (if batimentos ≥ 110 ∨ batimentos ≤ 50 then 25
     else if batimentos ≥ 100 ∨ batimentos ≤ 60 then 10 else 0)
  let pressao_s := vitais.pressao_sistolica.getD 120
  let pontos := pontos + (if pressao_s ≥ 160 ∨ pressao_s ≤ 90 then 20 else 0)
  pontos

/-- Source `SistemaTriagem.calcular_prioridade`, returning `(prioridade, emoji)`. -/
def calcular_prioridade (conversa : Conversa) : String × String :=
  let pontos := calcularPontos conversa
  if pontos ≥ 80 then ("URGENTE", "🔴")
  else if pontos ≥ 50 then ("ALTA", "🟠")
  else if pontos ≥ 25 then ("MÉDIA", "🟡")
  else ("BAIXA", "🟢")

/-- The `prefixos` table of `gerar_senha_chamada`. -/
def prefixos : List (String × String) :=
  [("URGENTE", "U"), ("ALTA", "A"), ("MÉDIA", "M"), ("BAIXA", "B")]

/-- Python 03d formatting of a natural number: zero-pad to width 3. -/
def pad3 (n : Nat) : String :=
  String.mk (List.replicate (3 - (Nat.repr n).length) '0') ++ Nat.repr n

/-- Source `SistemaTriagem.gerar_senha_chamada`. -/
def gerar_senha_chamada (prioridade : String) (r : Rng) : String × Rng :=
  let prefixo := sdictGet prefixos prioridade "G"
  let (numero, r1) := randint 1 999 r
  (prefixo ++ pad3 numero, r1)

/-- Source `SistemaTriagem.estimar_tempo_espera`. -/
def estimar_tempo_espera (prioridade : String) : String :=
  sdictGet
    [("URGENTE", "Atendimento imediato"),
     ("ALTA", "Aproximadamente 15-30 minutos"),
     ("MÉDIA", "Aproximadamente 30-60 minutos"),
     ("BAIXA", "Aproximadamente 1-2 horas")]
    prioridade "Aguarde a chamada"

/-- Source `SistemaTriagem.gerar_orientacoes`. -/
def gerar_orientacoes (prioridade : String) : String :=
  if prioridade = "URGENTE" then
    "Permaneça próximo ao balcão de atendimento. Em caso de piora, avise imediatamente a equipe."
  else if prioridade = "ALTA" then
    "Permaneça na sala de espera. Se sentir piora dos sintomas, avise a recepção."
  else
    "Aguarde confortavelmente na sala de espera. Mantenha-se hidratado."

/-- The pain level stored into the `Encounter` row:
`respostas.get(3, 0)` then `int(...)` with the exception handler
defaulting to 0 (`int(0)` is 0 when the key is absent). -/
def nivelDorArmazenado (respostas : List (Nat × String)) : Int :=
  match dictFind respostas 3 with
  | none => 0
  | some s => (pyInt s).getD 0

/-- Python `str(x)` for a one-decimal float held as tenths. -/
def strTenths (n : Nat) : String :=
  Nat.repr (n / 10) ++ "." ++ Nat.repr (n % 10)

/-- The `resposta_final` f-string of `finalizar_triagem`. -/
def respostaFinal (emoji prioridade senha : String) (l : Leitura) (nivel_dor : Int)
    (queixa : String) : String :=
  "\n✅ Triagem concluída com sucesso!\n\n📋 **RESUMO DA TRIAGEM**\n\n" ++
  emoji ++ " **Prioridade: " ++ prioridade ++ "**\n🎫 **Senha de chamada: " ++ senha ++
  "**\n\n📊 **Sinais Vitais:**\n• Temperatura: " ++ strTenths l.tempTenths ++
  "°C\n• Batimentos: " ++ Nat.repr l.batimentos ++ " bpm\n• Pressão: " ++
  Nat.repr l.pressao_sistolica ++ "/" ++ Nat.repr l.pressao_diastolica ++
  " mmHg\n• Nível de dor: " ++ toString nivel_dor ++
  "/10\n\n📝 **Queixa principal:**\n" ++ queixa ++
  "\n\n⏱️ **Tempo estimado de espera:**\n" ++ estimar_tempo_espera prioridade ++
  "\n\n💡 **Orientações:**\n" ++ gerar_orientacoes prioridade ++
  "\n\nAguarde a chamada da sua senha no painel. Obrigada por usar a AMÉLIA! 💙\n"

/-- The computation `finalizar_triagem` performs on the conversation it
looked up: simulate vitals, score, generate the ticket, build the
`Encounter` row and the summary.  Returns
`(resposta_final, nova_consulta, final rng)`. -/
def finalizacao (paciente_id : Nat) (conversa : Conversa) (r : Rng) :
    String × Encounter × Rng :=
  let (leitura, r1) := coletar_sinais_vitais r
  let conversa := { conversa with dados_vitais := leitura.dados }
  let pe := calcular_prioridade conversa
  let prioridade := pe.1
  let emoji := pe.2
  let (senha, r2) := gerar_senha_chamada prioridade r1
  let nivel_dor := nivelDorArmazenado conversa.respostas
  let nova_consulta : Encounter :=
    ⟨paciente_id, String.intercalate "\n" conversa.sintomas_coletados, nivel_dor,
     (leitura.tempTenths : ℚ) / 10, (leitura.batimentos : Int),
     (leitura.pressao_sistolica : Int), (leitura.pressao_diastolica : Int),
     prioridade, senha, "aguardando"⟩
  let resposta_final :=
    respostaFinal emoji prioridade senha leitura nivel_dor
      (dictGet conversa.respostas 1 "Não informado")
  (resposta_final, nova_consulta, r2)

/-- Source `SistemaTriagem.finalizar_triagem`.  Here `none` models the `KeyError` of
`conversas_ativas[paciente_id]` on a missing conversation (unreachable
from `processar_resposta`).  Since the conversation is deleted
(`del conversas_ativas[paciente_id]`) right after its `dados_vitais` are
written, the map update and the deletion collapse to one removal. -/
def finalizar_triagem (paciente_id : Nat) (e : Estado) : Option (String × Estado) :=
  match cdictFind e.conversas_ativas paciente_id with
  | none => none
  | some conversa =>
    let (resposta_final, nova_consulta, r2) := finalizacao paciente_id conversa e.rng
    some (resposta_final,
      ⟨cdictRemove e.conversas_ativas paciente_id,
       e.encounters ++ [nova_consulta], r2⟩)

/-- Source `SistemaTriagem.processar_resposta`.  The `some`/`none` distinction
models normal return versus an uncaught exception. -/
def processar_resposta (paciente_id : Nat) (resposta : String) (e : Estado) :
    Option (String × Estado) :=
  match cdictFind e.conversas_ativas paciente_id with
  | none => some (iniciar_conversa paciente_id e)
  | some conversa =>
    let etapa_atual := conversa.etapa
    let conversa :=
      if h : etapa_atual < PERGUNTAS.length then
        let pergunta_atual := PERGUNTAS.get ⟨etapa_atual, h⟩
        { conversa with
          respostas := dictSet conversa.respostas pergunta_atual.id resposta,
          sintomas_coletados := conversa.sintomas_coletados ++ [resposta] }
      else conversa
    let conversa := { conversa with etapa := conversa.etapa + 1 }
    let e2 : Estado := { e with conversas_ativas := cdictSet e.conversas_ativas paciente_id conversa }
    if h2 : conversa.etapa < PERGUNTAS.length then
      some ((PERGUNTAS.get ⟨conversa.etapa, h2⟩).texto, e2)
    else if conversa.etapa = PERGUNTAS.length then
      some (msgSinaisVitais, e2)
    else
      finalizar_triagem paciente_id e2

/-- Source `SistemaTriagem.resetar_conversa`. -/
def resetar_conversa (paciente_id : Nat) (e : Estado) : Estado :=
  { e with conversas_ativas := cdictRemove e.conversas_ativas paciente_id }

/-- Source `SistemaTriagem.obter_historico`. -/
def obter_historico (paciente_id : Nat) (e : Estado) : List String :=
  match cdictFind e.conversas_ativas paciente_id with
  | some c => c.sintomas_coletados
  | none => []

/-- Running a sequence of `processar_resposta` calls for one patient,
propagating the exception state. -/
def encadear (pid : Nat) : List String → (String × Estado) → Option (String × Estado)
  | [], p => some p
  | r :: rs, p => (processar_resposta pid r p.2).bind (encadear pid rs)

/-! ### Dictionary lemmas -/

theorem PERGUNTAS_length : PERGUNTAS.length = 4 := rfl

theorem cdictFind_set_self (m : List (Nat × Conversa)) (k : Nat) (v : Conversa) :
    cdictFind (cdictSet m k v) k = some v := by
  induction m with
  | nil => simp [cdictSet, cdictFind]
  | cons p rest ih =>
    obtain ⟨k', v'⟩ := p
    by_cases hk : k' = k <;> simp [cdictSet, cdictFind, hk, ih]

theorem cdictFind_remove_self (m : List (Nat × Conversa)) (k : Nat) :
    cdictFind (cdictRemove m k) k = none := by
  induction m with
  | nil => simp [cdictRemove, cdictFind]
  | cons p rest ih =>
    obtain ⟨k', v'⟩ := p
    by_cases hk : k' = k <;> simp [cdictRemove, cdictFind, hk, ih]

theorem cdictSet_cdictSet (m : List (Nat × Conversa)) (k : Nat) (v w : Conversa) :
    cdictSet (cdictSet m k v) k w = cdictSet m k w := by
  induction m with
  | nil => simp [cdictSet]
  | cons p rest ih =>
    obtain ⟨k', v'⟩ := p
    by_cases hk : k' = k <;> simp [cdictSet, hk, ih]

theorem cdictRemove_cdictSet (m : List (Nat × Conversa)) (k : Nat) (v : Conversa) :
    cdictRemove (cdictSet m k v) k = cdictRemove m k := by
  induction m with
  | nil => simp [cdictSet, cdictRemove]
  | cons p rest ih =>
    obtain ⟨k', v'⟩ := p
    by_cases hk : k' = k <;> simp [cdictSet, cdictRemove, hk, ih]

theorem dictFind_dictSet_self (m : List (Nat × String)) (k : Nat) (v : String) :
    dictFind (dictSet m k v) k = some v := by
  induction m with
  | nil => simp [dictSet, dictFind]
  | cons p rest ih =>
    obtain ⟨k', v'⟩ := p
    by_cases hk : k' = k <;> simp [dictSet, dictFind, hk, ih]

theorem dictFind_dictSet_ne (m : List (Nat × String)) (k k' : Nat) (v : String)
    (h : k' ≠ k) : dictFind (dictSet m k v) k' = dictFind m k' := by
  induction m with
  | nil => simp [dictSet, dictFind, if_neg (Ne.symm h)]
  | cons p rest ih =>
    obtain ⟨a, b⟩ := p
    by_cases ha : a = k
    · subst ha
      simp only [dictSet, if_pos rfl, dictFind, if_neg (Ne.symm h)]
    · simp only [dictSet, if_neg ha, dictFind]
      by_cases ha' : a = k' <;> simp [ha', ih]

theorem mem_dictSet (m : List (Nat × String)) (k : Nat) (v : String) (a : Nat) (b : String)
    (h : (a, b) ∈ dictSet m k v) : (a = k ∧ b = v) ∨ (a, b) ∈ m := by
  induction m with
  | nil =>
    simp only [dictSet, List.mem_singleton, Prod.mk.injEq] at h
    exact Or.inl h
  | cons p rest ih =>
    obtain ⟨x, y⟩ := p
    by_cases hx : x = k
    · subst hx
      simp only [dictSet, if_pos rfl] at h
      rcases List.mem_cons.1 h with h | h
      · injection h with h1 h2
        exact Or.inl ⟨h1, h2⟩
      · exact Or.inr (List.mem_cons_of_mem _ h)
    · simp only [dictSet, if_neg hx] at h
      rcases List.mem_cons.1 h with h | h
      · exact Or.inr (List.mem_cons.2 (Or.inl h))
      · rcases ih h with h' | h'
        · exact Or.inl h'
        · exact Or.inr (List.mem_cons_of_mem _ h')

/-! ### Ticket generator: C8 -/

/-- The prefix mapping as the claim states it. -/
def prefixoDe (tier : String) : String :=
  if tier = "URGENTE" then "U"
  else if tier = "ALTA" then "A"
  else if tier = "MÉDIA" then "M"
  else if tier = "BAIXA" then "B"
  else "G"

theorem sdictGet_prefixos (tier : String) :
    sdictGet prefixos tier "G" = prefixoDe tier := by
  by_cases h1 : tier = "URGENTE"
  · subst h1; rfl
  by_cases h2 : tier = "ALTA"
  · subst h2; rfl
  by_cases h3 : tier = "MÉDIA"
  · subst h3; rfl
  by_cases h4 : tier = "BAIXA"
  · subst h4; rfl
  · have n1 : "URGENTE" ≠ tier := fun hh => h1 hh.symm
    have n2 : "ALTA" ≠ tier := fun hh => h2 hh.symm
    have n3 : "MÉDIA" ≠ tier := fun hh => h3 hh.symm
    have n4 : "BAIXA" ≠ tier := fun hh => h4 hh.symm
    simp [sdictGet, prefixos, prefixoDe, n1, n2, n3, n4, h1, h2, h3, h4]

theorem pad3_length (n : Nat) (h : n ≤ 999) : (pad3 n).length = 3 := by
  have hr : (Nat.repr n).length ≤ 3 :=
    Nat.repr_length n 3 (by omega) (by omega)
  unfold pad3
  rw [String.length_append, String.length_mk, List.length_replicate]
  omega

/-- C8: for every tier string, the ticket is the mapped one-letter prefix
(`URGENTE→U`, `ALTA→A`, `MÉDIA→M`, `BAIXA→B`, otherwise `G`) followed by a
number in [1, 999] zero-padded to exactly 3 digits. -/
theorem C8_senha_formato (prioridade : String) (r : Rng) :
    ∃ numero : Nat, 1 ≤ numero ∧ numero ≤ 999 ∧
      (gerar_senha_chamada prioridade r).1 = prefixoDe prioridade ++ pad3 numero ∧
      (pad3 numero).length = 3 := by
  refine ⟨1 + r.seq r.idx % 999, by omega, ?_, ?_, ?_⟩
  · have := Nat.mod_lt (r.seq r.idx) (y := 999) (by omega)
    omega
  · unfold gerar_senha_chamada randint Rng.next
    rw [sdictGet_prefixos]
  · exact pad3_length _ (by have := Nat.mod_lt (r.seq r.idx) (y := 999) (by omega); omega)

/-! ### State machine step lemmas -/

/-- C9: advancing a patient with no active session silently starts a new
session (step 0, no answers) and returns the first prompt. -/
theorem C9_sessao_ausente (e : Estado) (pid : Nat) (a : String)
    (h : cdictFind e.conversas_ativas pid = none) :
    processar_resposta pid a e =
      some ((PERGUNTAS.get ⟨0, by decide⟩).texto,
        ⟨cdictSet e.conversas_ativas pid novaConversa, e.encounters, e.rng⟩)
    ∧ novaConversa.etapa = 0 ∧ novaConversa.respostas = [] := by
  refine ⟨?_, rfl, rfl⟩
  unfold processar_resposta iniciar_conversa
  rw [h]

/-- C9 witness. -/
theorem C9_sessao_ausente_witness :
    cdictFind ([] : List (Nat × Conversa)) 7 = none ∧
    processar_resposta 7 "olá" ⟨[], [], ⟨fun _ => 0, 0⟩⟩ =
      some ((PERGUNTAS.get ⟨0, by decide⟩).texto,
        ⟨cdictSet [] 7 novaConversa, [], ⟨fun _ => 0, 0⟩⟩) :=
  ⟨rfl, (C9_sessao_ausente ⟨[], [], ⟨fun _ => 0, 0⟩⟩ 7 "olá" rfl).1⟩

/-- C6: on the advance call where the step becomes exactly the script
length, only the fourth answer is recorded and the step incremented; the
fixed "collecting vitals" message is returned, and the vitals, the
encounter table and the random stream are untouched. -/
theorem C6_pausa_vitais (e : Estado) (pid : Nat) (a : String) (c : Conversa)
    (h : cdictFind e.conversas_ativas pid = some c) (h3 : c.etapa = 3) :
    processar_resposta pid a e =
      some (msgSinaisVitais,
        ⟨cdictSet e.conversas_ativas pid
          ⟨4, dictSet c.respostas 4 a, c.sintomas_coletados ++ [a], c.dados_vitais⟩,
         e.encounters, e.rng⟩) := by
  unfold processar_resposta
  rw [h]
  simp only [h3]
  rfl

/-! ### Priority scorer: C1, C7, C10

The `spec...Pontos` definitions restate the six independent contributions
the claims describe; the decomposition lemma connects them to the
sequential accumulation of the source. -/

/-- Pain contribution as the claim states it: from the raw answer to
question 3 when present; a missing or unparseable answer contributes 0. -/
def specDorPontos (respostas : List (Nat × String)) : Int :=
  match dictFind respostas 3 with
  | some s => pontosDorTexto s
  | none => 0

/-- +50 when the answer to question 4 contains "sim" case-insensitively. -/
def specSimPontos (respostas : List (Nat × String)) : Int :=
  if containsSub "sim" ((dictGet respostas 4 "").toLower) then 50 else 0

/-- +15 when the answer to question 2 contains "hora" case-insensitively. -/
def specHoraPontos (respostas : List (Nat × String)) : Int :=
  if containsSub "hora" ((dictGet respostas 2 "").toLower) then 15 else 0

/-- +30 when temperature ≥ 39.0, else +15 when ≥ 38.0. -/
def specTempPontos (v : DadosVitais) : Int :=
  if v.temperatura.getD (365 / 10 : ℚ) ≥ 39 then 30
  else if v.temperatura.getD (365 / 10 : ℚ) ≥ 38 then 15 else 0

/-- +25 when heart rate ≥ 110 or ≤ 50, else +10 when in 100–109 or 51–60. -/
def specBatPontos (v : DadosVitais) : Int :=
  if v.batimentos.getD 75 ≥ 110 ∨ v.batimentos.getD 75 ≤ 50 then 25
  else if (100 ≤ v.batimentos.getD 75 ∧ v.batimentos.getD 75 ≤ 109) ∨
      (51 ≤ v.batimentos.getD 75 ∧ v.batimentos.getD 75 ≤ 60) then 10
  else 0

/-- +20 when systolic pressure ≥ 160 or ≤ 90. -/
def specPressaoPontos (v : DadosVitais) : Int :=
  if v.pressao_sistolica.getD 120 ≥ 160 ∨ v.pressao_sistolica.getD 120 ≤ 90 then 20 else 0

/-- The answers-only score: what the scorer computes from a session whose
vitals were never collected. -/
def specPontosRespostas (respostas : List (Nat × String)) : Int :=
  specDorPontos respostas + specSimPontos respostas + specHoraPontos respostas

theorem pontosDor_dictGet (respostas : List (Nat × String)) :
    pontosDorTexto (dictGet respostas 3 "0") = specDorPontos respostas := by
  unfold specDorPontos dictGet
  cases hf : dictFind respostas 3 with
  | none => rfl
  | some s => rfl

theorem batPontos_intervalos (b : Int) :
    (if b ≥ 110 ∨ b ≤ 50 then (25 : Int) else if b ≥ 100 ∨ b ≤ 60 then 10 else 0) =
      (if b ≥ 110 ∨ b ≤ 50 then (25 : Int)
       else if (100 ≤ b ∧ b ≤ 109) ∨ (51 ≤ b ∧ b ≤ 60) then 10
       else 0) := by
  split_ifs with h1 h2 h3 <;> omega

/-- The sequential accumulation equals the sum of the six independent
contributions. -/
theorem calcularPontos_eq_soma (c : Conversa) :
    calcularPontos c =
      specDorPontos c.respostas + specSimPontos c.respostas + specHoraPontos c.respostas +
      specTempPontos c.dados_vitais + specBatPontos c.dados_vitais +
      specPressaoPontos c.dados_vitais := by
  dsimp only [calcularPontos]
  rw [zero_add, pontosDor_dictGet, batPontos_intervalos]
  unfold specSimPontos specHoraPontos specTempPontos specBatPontos specPressaoPontos
  rfl

/-- C1: the priority scorer is a deterministic additive point total — pain
level, "sim" flag, "hora" flag, temperature, heart-rate and systolic
bands — and the tier comes from the thresholds 80/50/25. -/
theorem C1_pontuacao_aditiva (c : Conversa) :
    calcularPontos c =
      specDorPontos c.respostas + specSimPontos c.respostas + specHoraPontos c.respostas +
      specTempPontos c.dados_vitais + specBatPontos c.dados_vitais +
      specPressaoPontos c.dados_vitais
    ∧ calcular_prioridade c =
      (if calcularPontos c ≥ 80 then ("URGENTE", "🔴")
       else if calcularPontos c ≥ 50 then ("ALTA", "🟠")
       else if calcularPontos c ≥ 25 then ("MÉDIA", "🟡")
       else ("BAIXA", "🟢")) :=
  ⟨calcularPontos_eq_soma c, rfl⟩

/-- C10: with no vitals collected, every vital falls back to a default
(36.5 / 75 / 120) contributing 0 points, so the result is the
answers-only score fed through the same thresholds. -/
theorem C10_vitais_vazios (c : Conversa)
    (ht : c.dados_vitais.temperatura = none)
    (hb : c.dados_vitais.batimentos = none)
    (hp : c.dados_vitais.pressao_sistolica = none) :
    specTempPontos c.dados_vitais = 0
    ∧ specBatPontos c.dados_vitais = 0
    ∧ specPressaoPontos c.dados_vitais = 0
    ∧ calcularPontos c = specPontosRespostas c.respostas
    ∧ calcular_prioridade c =
      (if specPontosRespostas c.respostas ≥ 80 then ("URGENTE", "🔴")
       else if specPontosRespostas c.respostas ≥ 50 then ("ALTA", "🟠")
       else if specPontosRespostas c.respostas ≥ 25 then ("MÉDIA", "🟡")
       else ("BAIXA", "🟢")) := by
  have h1 : specTempPontos c.dados_vitais = 0 := by
    unfold specTempPontos
    rw [ht]
    norm_num [Option.getD_none]
  have h2 : specBatPontos c.dados_vitais = 0 := by
    unfold specBatPontos
    rw [hb]
    decide
  have h3 : specPressaoPontos c.dados_vitais = 0 := by
    unfold specPressaoPontos
    rw [hp]
    decide
  have hcp : calcularPontos c = specPontosRespostas c.respostas := by
    rw [calcularPontos_eq_soma, h1, h2, h3]
    unfold specPontosRespostas
    ring
  refine ⟨h1, h2, h3, hcp, ?_⟩
  unfold calcular_prioridade
  rw [hcp]

/-- C10 witness. -/
theorem C10_vitais_vazios_witness :
    semVitais.temperatura = none ∧
    calcularPontos ⟨4, [(2, "3 horas"), (3, "9")], [], semVitais⟩ =
      specPontosRespostas [(2, "3 horas"), (3, "9")] :=
  ⟨rfl, (C10_vitais_vazios ⟨4, [(2, "3 horas"), (3, "9")], [], semVitais⟩ rfl rfl rfl).2.2.2.1⟩

/-- C7: with everything else fixed, the point total is monotone
non-decreasing in an integer pain level in [0, 10]. -/
theorem C7_monotonia_dor (c : Conversa) (p1 p2 : Nat) (h12 : p1 ≤ p2) (h10 : p2 ≤ 10) :
    calcularPontos { c with respostas := dictSet c.respostas 3 (Nat.repr p1) } ≤
    calcularPontos { c with respostas := dictSet c.respostas 3 (Nat.repr p2) } := by
  have key : ∀ s : String,
      calcularPontos { c with respostas := dictSet c.respostas 3 s } =
        pontosDorTexto s +
          (specSimPontos c.respostas + specHoraPontos c.respostas +
           specTempPontos c.dados_vitais + specBatPontos c.dados_vitais +
           specPressaoPontos c.dados_vitais) := by
    intro s
    rw [calcularPontos_eq_soma]
    have hd : specDorPontos (dictSet c.respostas 3 s) = pontosDorTexto s := by
      unfold specDorPontos
      rw [dictFind_dictSet_self]
    have hs : specSimPontos (dictSet c.respostas 3 s) = specSimPontos c.respostas := by
      unfold specSimPontos dictGet
      rw [dictFind_dictSet_ne _ _ _ _ (by decide)]
    have hh : specHoraPontos (dictSet c.respostas 3 s) = specHoraPontos c.respostas := by
      unfold specHoraPontos dictGet
      rw [dictFind_dictSet_ne _ _ _ _ (by decide)]
    dsimp only
    rw [hd, hs, hh]
    ring
  rw [key, key]
  have mono : ∀ q1 : Nat, q1 < 11 → ∀ q2 : Nat, q2 < 11 → q1 ≤ q2 →
      pontosDorTexto (Nat.repr q1) ≤ pontosDorTexto (Nat.repr q2) := by decide
  exact add_le_add_right (mono p1 (by omega) p2 (by omega) h12) _

/-- C7 witness. -/
theorem C7_monotonia_dor_witness :
    2 ≤ 9 ∧ 9 ≤ 10 ∧
    calcularPontos { novaConversa with respostas := dictSet [] 3 (Nat.repr 2) } ≤
      calcularPontos { novaConversa with respostas := dictSet [] 3 (Nat.repr 9) } :=
  ⟨by decide, by decide, C7_monotonia_dor novaConversa 2 9 (by decide) (by decide)⟩

/-- C6 witness. -/
theorem C6_pausa_vitais_witness :
    cdictFind [(1, (⟨3, [(1, "dor"), (2, "2 horas"), (3, "5")], ["dor", "2 horas", "5"], semVitais⟩ : Conversa))] 1 =
      some ⟨3, [(1, "dor"), (2, "2 horas"), (3, "5")], ["dor", "2 horas", "5"], semVitais⟩ ∧
    processar_resposta 1 "sim" ⟨[(1, ⟨3, [(1, "dor"), (2, "2 horas"), (3, "5")], ["dor", "2 horas", "5"], semVitais⟩)], [], ⟨fun _ => 3, 0⟩⟩ =
      some (msgSinaisVitais,
        ⟨cdictSet [(1, ⟨3, [(1, "dor"), (2, "2 horas"), (3, "5")], ["dor", "2 horas", "5"], semVitais⟩)] 1
          ⟨4, dictSet [(1, "dor"), (2, "2 horas"), (3, "5")] 4 "sim",
           ["dor", "2 horas", "5"] ++ ["sim"], semVitais⟩,
         [], ⟨fun _ => 3, 0⟩⟩) :=
  ⟨rfl,
   C6_pausa_vitais ⟨[(1, ⟨3, [(1, "dor"), (2, "2 horas"), (3, "5")], ["dor", "2 horas", "5"], semVitais⟩)], [], ⟨fun _ => 3, 0⟩⟩
     1 "sim" ⟨3, [(1, "dor"), (2, "2 horas"), (3, "5")], ["dor", "2 horas", "5"], semVitais⟩ rfl rfl⟩

/-! ### Run lemmas: one advance at each stage, and the complete run -/

/-- The finished conversation as it stands when finalization fires on the
fifth advance: all four answers recorded, step 5, vitals not yet taken. -/
def conversaCompleta (a1 a2 a3 a4 : String) : Conversa :=
  ⟨5, [(1, a1), (2, a2), (3, a3), (4, a4)], [a1, a2, a3, a4], semVitais⟩

theorem finalizar_some (e : Estado) (pid : Nat) (c : Conversa)
    (h : cdictFind e.conversas_ativas pid = some c) :
    finalizar_triagem pid e =
      some ((finalizacao pid c e.rng).1,
        ⟨cdictRemove e.conversas_ativas pid,
         e.encounters ++ [(finalizacao pid c e.rng).2.1],
         (finalizacao pid c e.rng).2.2⟩) := by
  unfold finalizar_triagem
  rw [h]

theorem processar_tarde (e : Estado) (pid : Nat) (a : String) (c : Conversa)
    (h : cdictFind e.conversas_ativas pid = some c) (h4 : 4 ≤ c.etapa) :
    processar_resposta pid a e =
      some ((finalizacao pid ⟨c.etapa + 1, c.respostas, c.sintomas_coletados, c.dados_vitais⟩ e.rng).1,
        ⟨cdictRemove e.conversas_ativas pid,
         e.encounters ++
           [(finalizacao pid ⟨c.etapa + 1, c.respostas, c.sintomas_coletados, c.dados_vitais⟩ e.rng).2.1],
         (finalizacao pid ⟨c.etapa + 1, c.respostas, c.sintomas_coletados, c.dados_vitais⟩ e.rng).2.2⟩) := by
  have hl1 : ¬ (c.etapa < PERGUNTAS.length) := by rw [PERGUNTAS_length]; omega
  have hl2 : ¬ (c.etapa + 1 < PERGUNTAS.length) := by rw [PERGUNTAS_length]; omega
  have hl3 : ¬ (c.etapa + 1 = PERGUNTAS.length) := by rw [PERGUNTAS_length]; omega
  unfold processar_resposta
  rw [h]
  simp only [dif_neg hl1, dif_neg hl2, if_neg hl3]
  rw [finalizar_some _ pid ⟨c.etapa + 1, c.respostas, c.sintomas_coletados, c.dados_vitais⟩
    (cdictFind_set_self _ _ _)]
  rw [cdictRemove_cdictSet]

theorem processar_etapa0 (e : Estado) (pid : Nat) (a : String) (c : Conversa)
    (h : cdictFind e.conversas_ativas pid = some c) (h0 : c.etapa = 0) :
    processar_resposta pid a e =
      some ((PERGUNTAS.get ⟨1, by decide⟩).texto,
        ⟨cdictSet e.conversas_ativas pid
          ⟨1, dictSet c.respostas 1 a, c.sintomas_coletados ++ [a], c.dados_vitais⟩,
         e.encounters, e.rng⟩) := by
  unfold processar_resposta
  rw [h]
  simp only [h0]
  rfl

theorem processar_etapa1 (e : Estado) (pid : Nat) (a : String) (c : Conversa)
    (h : cdictFind e.conversas_ativas pid = some c) (h1 : c.etapa = 1) :
    processar_resposta pid a e =
      some ((PERGUNTAS.get ⟨2, by decide⟩).texto,
        ⟨cdictSet e.conversas_ativas pid
          ⟨2, dictSet c.respostas 2 a, c.sintomas_coletados ++ [a], c.dados_vitais⟩,
         e.encounters, e.rng⟩) := by
  unfold processar_resposta
  rw [h]
  simp only [h1]
  rfl

theorem processar_etapa2 (e : Estado) (pid : Nat) (a : String) (c : Conversa)
    (h : cdictFind e.conversas_ativas pid = some c) (h2 : c.etapa = 2) :
    processar_resposta pid a e =
      some ((PERGUNTAS.get ⟨3, by decide⟩).texto,
        ⟨cdictSet e.conversas_ativas pid
          ⟨3, dictSet c.respostas 3 a, c.sintomas_coletados ++ [a], c.dados_vitais⟩,
         e.encounters, e.rng⟩) := by
  unfold processar_resposta
  rw [h]
  simp only [h2]
  rfl

theorem processar_etapa3 (e : Estado) (pid : Nat) (a : String) (c : Conversa)
    (h : cdictFind e.conversas_ativas pid = some c) (h3 : c.etapa = 3) :
    processar_resposta pid a e =
      some (msgSinaisVitais,
        ⟨cdictSet e.conversas_ativas pid
          ⟨4, dictSet c.respostas 4 a, c.sintomas_coletados ++ [a], c.dados_vitais⟩,
         e.encounters, e.rng⟩) := by
  unfold processar_resposta
  rw [h]
  simp only [h3]
  rfl

/-- The full run: `iniciar_conversa` followed by exactly five
`processar_resposta` calls finalizes the triage, whatever the answers:
the session is removed, one `Encounter` row is appended, and the summary
produced by `finalizacao` is returned. -/
theorem corrida_completa (e0 : Estado) (pid : Nat) (a1 a2 a3 a4 a5 : String) :
    encadear pid [a1, a2, a3, a4, a5] (iniciar_conversa pid e0) =
      some ((finalizacao pid (conversaCompleta a1 a2 a3 a4) e0.rng).1,
        ⟨cdictRemove e0.conversas_ativas pid,
         e0.encounters ++ [(finalizacao pid (conversaCompleta a1 a2 a3 a4) e0.rng).2.1],
         (finalizacao pid (conversaCompleta a1 a2 a3 a4) e0.rng).2.2⟩) := by
  simp only [encadear, iniciar_conversa]
  rw [processar_etapa0 _ pid a1 novaConversa (cdictFind_set_self _ _ _) rfl]
  dsimp only [Option.bind]
  rw [processar_etapa1 _ pid a2 _ (cdictFind_set_self _ _ _) rfl]
  dsimp only [Option.bind]
  rw [processar_etapa2 _ pid a3 _ (cdictFind_set_self _ _ _) rfl]
  dsimp only [Option.bind]
  rw [processar_etapa3 _ pid a4 _ (cdictFind_set_self _ _ _) rfl]
  dsimp only [Option.bind]
  rw [processar_tarde _ pid a5 _ (cdictFind_set_self _ _ _) (by rfl)]
  dsimp only [Option.bind]
  simp only [cdictRemove_cdictSet]
  rfl

/-! ### C4: five advances always finalize -/

/-- C4: from a fresh session, exactly `scriptLength + 1 = 5` advances
always reach the finished state regardless of answer content: the run
raises no error and returns the finalization summary, the session is
discarded (no longer found), and exactly five random draws happened
(four vitals once, one ticket). -/
theorem C4_cinco_avancos (e0 : Estado) (pid : Nat) (a1 a2 a3 a4 a5 : String) :
    encadear pid [a1, a2, a3, a4, a5] (iniciar_conversa pid e0) =
      some ((finalizacao pid (conversaCompleta a1 a2 a3 a4) e0.rng).1,
        ⟨cdictRemove e0.conversas_ativas pid,
         e0.encounters ++ [(finalizacao pid (conversaCompleta a1 a2 a3 a4) e0.rng).2.1],
         (finalizacao pid (conversaCompleta a1 a2 a3 a4) e0.rng).2.2⟩)
    ∧ cdictFind (cdictRemove e0.conversas_ativas pid) pid = none
    ∧ ((finalizacao pid (conversaCompleta a1 a2 a3 a4) e0.rng).2.2).idx = e0.rng.idx + 5 :=
  ⟨corrida_completa e0 pid a1 a2 a3 a4 a5, cdictFind_remove_self _ _, rfl⟩

/-! ### C3: advancing an already-finished session -/

/-- C3 counterexample: after a finished run (five answers) the session is
gone; one more advance call changes the state — it re-creates a fresh
session — and returns the first prompt, not the summary the finalization
returned. -/
theorem C3_contraexemplo :
    (encadear 1 ["a", "b", "c", "d", "e"] (iniciar_conversa 1 ⟨[], [], ⟨fun _ => 0, 0⟩⟩)).map
        (fun p => cdictFind p.2.conversas_ativas 1) = some none
    ∧ (encadear 1 ["a", "b", "c", "d", "e", "f"] (iniciar_conversa 1 ⟨[], [], ⟨fun _ => 0, 0⟩⟩)).map
        (fun p => cdictFind p.2.conversas_ativas 1) = some (some novaConversa)
    ∧ (encadear 1 ["a", "b", "c", "d", "e", "f"] (iniciar_conversa 1 ⟨[], [], ⟨fun _ => 0, 0⟩⟩)).map
        Prod.fst = some (PERGUNTAS.get ⟨0, by decide⟩).texto
    ∧ (encadear 1 ["a", "b", "c", "d", "e", "f"] (iniciar_conversa 1 ⟨[], [], ⟨fun _ => 0, 0⟩⟩)).map
        Prod.fst ≠
      (encadear 1 ["a", "b", "c", "d", "e"] (iniciar_conversa 1 ⟨[], [], ⟨fun _ => 0, 0⟩⟩)).map
        Prod.fst := by
  refine ⟨rfl, rfl, rfl, ?_⟩
  decide

/-- C3 (amended): advancing a session whose finalization has already run
raises no error, but it is not a stateless no-op returning the last
summary: the session was deleted at finalization, so the call implicitly
starts a fresh session (step 0, no answers) and returns the first prompt. -/
theorem C3_avanco_apos_finalizada (e0 : Estado) (pid : Nat)
    (a1 a2 a3 a4 a5 a6 resumo : String) (e5 : Estado)
    (h : encadear pid [a1, a2, a3, a4, a5] (iniciar_conversa pid e0) = some (resumo, e5)) :
    processar_resposta pid a6 e5 =
      some ((PERGUNTAS.get ⟨0, by decide⟩).texto,
        ⟨cdictSet e5.conversas_ativas pid novaConversa, e5.encounters, e5.rng⟩) := by
  rw [corrida_completa] at h
  injection h with h2
  injection h2 with hr hs
  subst hs
  unfold processar_resposta iniciar_conversa
  rw [cdictFind_remove_self]

/-- C3 (amended) witness. -/
theorem C3_avanco_apos_finalizada_witness :
    encadear 9 ["a", "b", "c", "d", "e"] (iniciar_conversa 9 ⟨[], [], ⟨fun _ => 1, 0⟩⟩) =
      some ((finalizacao 9 (conversaCompleta "a" "b" "c" "d") (⟨fun _ => 1, 0⟩ : Rng)).1,
        ⟨cdictRemove [] 9,
         [] ++ [(finalizacao 9 (conversaCompleta "a" "b" "c" "d") (⟨fun _ => 1, 0⟩ : Rng)).2.1],
         (finalizacao 9 (conversaCompleta "a" "b" "c" "d") (⟨fun _ => 1, 0⟩ : Rng)).2.2⟩)
    ∧ processar_resposta 9 "f"
        ⟨cdictRemove [] 9,
         [] ++ [(finalizacao 9 (conversaCompleta "a" "b" "c" "d") (⟨fun _ => 1, 0⟩ : Rng)).2.1],
         (finalizacao 9 (conversaCompleta "a" "b" "c" "d") (⟨fun _ => 1, 0⟩ : Rng)).2.2⟩ =
      some ((PERGUNTAS.get ⟨0, by decide⟩).texto,
        ⟨cdictSet (cdictRemove [] 9) 9 novaConversa,
         [] ++ [(finalizacao 9 (conversaCompleta "a" "b" "c" "d") (⟨fun _ => 1, 0⟩ : Rng)).2.1],
         (finalizacao 9 (conversaCompleta "a" "b" "c" "d") (⟨fun _ => 1, 0⟩ : Rng)).2.2⟩) :=
  ⟨corrida_completa ⟨[], [], ⟨fun _ => 1, 0⟩⟩ 9 "a" "b" "c" "d" "e",
   C3_avanco_apos_finalizada ⟨[], [], ⟨fun _ => 1, 0⟩⟩ 9 "a" "b" "c" "d" "e" "f" _ _
     (corrida_completa ⟨[], [], ⟨fun _ => 1, 0⟩⟩ 9 "a" "b" "c" "d" "e")⟩

/-! ### C2: the stored pain level -/

/-- C2 counterexample: finalizing with the pain answer "15" stores the
pain level 15 in the new `Encounter` row — outside [0, 10] and not the
0–10 clamp of 15. -/
theorem C2_contraexemplo :
    ((finalizar_triagem 1 ⟨[(1, ⟨5, [(3, "15")], [], semVitais⟩)], [], ⟨fun _ => 0, 0⟩⟩).map
      (fun p => p.2.encounters.map Encounter.nivel_dor)) = some [15]
    ∧ ¬ ((15 : Int) ≤ 10) ∧ (15 : Int) ≠ max 0 (min 10 15) :=
  ⟨rfl, by decide, by decide⟩

/-- C2 (amended): the `Encounter` row stores the pain level exactly as
parsed — `int(answer)` with no clamping, so values outside [0, 10] are
stored as given — and 0 when the answer is missing or unparseable. -/
theorem C2_dor_armazenada (e : Estado) (pid : Nat) (c : Conversa)
    (h : cdictFind e.conversas_ativas pid = some c) :
    finalizar_triagem pid e =
      some ((finalizacao pid c e.rng).1,
        ⟨cdictRemove e.conversas_ativas pid,
         e.encounters ++ [(finalizacao pid c e.rng).2.1],
         (finalizacao pid c e.rng).2.2⟩)
    ∧ (∀ s, dictFind c.respostas 3 = some s →
        ((finalizacao pid c e.rng).2.1).nivel_dor = (pyInt s).getD 0)
    ∧ (dictFind c.respostas 3 = none → ((finalizacao pid c e.rng).2.1).nivel_dor = 0) := by
  refine ⟨finalizar_some e pid c h, ?_, ?_⟩
  · intro s hs
    show nivelDorArmazenado c.respostas = _
    unfold nivelDorArmazenado
    rw [hs]
  · intro hs
    show nivelDorArmazenado c.respostas = _
    unfold nivelDorArmazenado
    rw [hs]

/-- C2 (amended) witness. -/
theorem C2_dor_armazenada_witness :
    cdictFind [(1, (⟨5, [(3, "15")], [], semVitais⟩ : Conversa))] 1 =
      some ⟨5, [(3, "15")], [], semVitais⟩
    ∧ dictFind [(3, "15")] 3 = some "15"
    ∧ ((finalizacao 1 (⟨5, [(3, "15")], [], semVitais⟩ : Conversa) (⟨fun _ => 0, 0⟩ : Rng)).2.1).nivel_dor =
        (pyInt "15").getD 0 :=
  ⟨rfl, rfl,
   (C2_dor_armazenada ⟨[(1, ⟨5, [(3, "15")], [], semVitais⟩)], [], ⟨fun _ => 0, 0⟩⟩ 1
     ⟨5, [(3, "15")], [], semVitais⟩ rfl).2.1 "15" rfl⟩

/-! ### C5: the step/answers invariant -/

/-- The answers map only holds entries for questions whose step has been
reached. -/
def RespostasAlcancadas (c : Conversa) : Prop :=
  ∀ k v, (k, v) ∈ c.respostas →
    ∃ i : Fin PERGUNTAS.length, (i : Nat) < c.etapa ∧ (PERGUNTAS.get i).id = k

/-- C5: one advance on an active session either finalizes (removing the
session) or leaves a session whose step grew by exactly 1; the answer to
the question at the current step is recorded before the increment, no
answer is recorded once the step is past the script, and the
reached-questions invariant is preserved. -/
theorem C5_passo_incrementa (e : Estado) (pid : Nat) (a : String) (c : Conversa)
    (h : cdictFind e.conversas_ativas pid = some c) (hInv : RespostasAlcancadas c) :
    ∃ r e', processar_resposta pid a e = some (r, e') ∧
      ∀ c', cdictFind e'.conversas_ativas pid = some c' →
        c'.etapa = c.etapa + 1 ∧ RespostasAlcancadas c' ∧
        (∀ hlt : c.etapa < PERGUNTAS.length,
          c'.respostas = dictSet c.respostas (PERGUNTAS.get ⟨c.etapa, hlt⟩).id a) ∧
        (PERGUNTAS.length ≤ c.etapa → c'.respostas = c.respostas) := by
  by_cases hlt : c.etapa < PERGUNTAS.length
  · have hP : ∀ c', cdictFind
        (cdictSet e.conversas_ativas pid
          ⟨c.etapa + 1, dictSet c.respostas (PERGUNTAS.get ⟨c.etapa, hlt⟩).id a,
           c.sintomas_coletados ++ [a], c.dados_vitais⟩) pid = some c' →
        c'.etapa = c.etapa + 1 ∧ RespostasAlcancadas c' ∧
        (∀ hlt' : c.etapa < PERGUNTAS.length,
          c'.respostas = dictSet c.respostas (PERGUNTAS.get ⟨c.etapa, hlt'⟩).id a) ∧
        (PERGUNTAS.length ≤ c.etapa → c'.respostas = c.respostas) := by
      intro c' hc'
      rw [cdictFind_set_self] at hc'
      injection hc' with hc'
      subst hc'
      refine ⟨rfl, ?_, fun hlt' => rfl, fun hge => absurd (hlt.trans_le hge) (lt_irrefl _)⟩
      intro k v hm
      rcases mem_dictSet _ _ _ _ _ hm with ⟨hk, hv⟩ | hm'
      · exact ⟨⟨c.etapa, hlt⟩, Nat.lt_succ_self _, hk.symm⟩
      · rcases hInv k v hm' with ⟨i, hi, hid⟩
        exact ⟨i, Nat.lt_succ_of_lt hi, hid⟩
    unfold processar_resposta
    rw [h]
    simp only [dif_pos hlt]
    split_ifs with h2 h3
    · exact ⟨_, _, rfl, hP⟩
    · exact ⟨_, _, rfl, hP⟩
    · rw [PERGUNTAS_length] at hlt h2 h3
      omega
  · have h4 : 4 ≤ c.etapa := by rw [PERGUNTAS_length] at hlt; omega
    refine ⟨_, _, processar_tarde e pid a c h h4, ?_⟩
    intro c' hc'
    rw [cdictFind_remove_self] at hc'
    exact Option.noConfusion hc'

/-- C5 witness. -/
theorem C5_passo_incrementa_witness :
    cdictFind [(2, (⟨1, [(1, "tosse")], ["tosse"], semVitais⟩ : Conversa))] 2 =
      some ⟨1, [(1, "tosse")], ["tosse"], semVitais⟩
    ∧ RespostasAlcancadas ⟨1, [(1, "tosse")], ["tosse"], semVitais⟩
    ∧ ∃ r e', processar_resposta 2 "2 dias" ⟨[(2, ⟨1, [(1, "tosse")], ["tosse"], semVitais⟩)], [], ⟨fun _ => 0, 0⟩⟩ = some (r, e') ∧
      ∀ c', cdictFind e'.conversas_ativas 2 = some c' →
        c'.etapa = (⟨1, [(1, "tosse")], ["tosse"], semVitais⟩ : Conversa).etapa + 1 ∧
        RespostasAlcancadas c' ∧
        (∀ hlt : (⟨1, [(1, "tosse")], ["tosse"], semVitais⟩ : Conversa).etapa < PERGUNTAS.length,
          c'.respostas = dictSet [(1, "tosse")] (PERGUNTAS.get ⟨1, hlt⟩).id "2 dias") ∧
        (PERGUNTAS.length ≤ (⟨1, [(1, "tosse")], ["tosse"], semVitais⟩ : Conversa).etapa →
          c'.respostas = [(1, "tosse")]) := by
  have hInv : RespostasAlcancadas ⟨1, [(1, "tosse")], ["tosse"], semVitais⟩ := by
    intro k v hm
    rcases List.mem_singleton.1 hm with h
    injection h with h1 h2
    subst h1
    exact ⟨⟨0, by decide⟩, by decide, rfl⟩
  exact ⟨rfl, hInv,
    C5_passo_incrementa ⟨[(2, ⟨1, [(1, "tosse")], ["tosse"], semVitais⟩)], [], ⟨fun _ => 0, 0⟩⟩
      2 "2 dias" ⟨1, [(1, "tosse")], ["tosse"], semVitais⟩ rfl hInv⟩

end Amelia
